import Mathlib

/-!
Verification of the multi-backend gateway in `backend/app.py` of the
fashion-recommendation-sys repository.

The Python program is shallowly embedded: remote-client construction,
HTTP downloads, remote inference calls and file copies are modelled as
oracles (function parameters), and every observable side effect of a
route handler is recorded in an explicit effect trace.  Each definition
mirrors one Python function of `backend/app.py` and keeps its name.
-/

namespace FashionApp

/-- A bound remote client handle, identified by the endpoint address it
was constructed against (`gradio_client.Client(url)`). -/
structure Client where
  url : String
deriving DecidableEq, Repr

/-- Events observable during the startup resolution pass: one
construction attempt `Client(url)` (with its 0-based attempt index), or
one `sleep(2)` backoff wait. -/
inductive REvent where
  | attempt (url : String) (i : Nat)
  | sleep (secs : Nat)
deriving DecidableEq, Repr

/-- The retry loop inside `initialize_gradio_client`: with `fuel`
attempts remaining and `i` the index of the next attempt, try
`construct url i`; on failure sleep 2 seconds unless this was the final
attempt, then retry.  `construct url i = true` models `Client(url)`
succeeding on attempt `i`, `false` models it raising. -/
def tryAttempts (construct : String → Nat → Bool) (url : String) :
    Nat → Nat → Option Client × List REvent
  | 0, _ => (none, [])
  | fuel + 1, i =>
    if construct url i then
      (some ⟨url⟩, [REvent.attempt url i])
    else if fuel = 0 then
      (none, [REvent.attempt url i])
    else
      let rest := tryAttempts construct url fuel (i + 1)
      (rest.1, REvent.attempt url i :: REvent.sleep 2 :: rest.2)

/-- `initialize_gradio_client(url, max_retries)` (app.py lines 33–44):
try to construct a client against `url` up to `max_retries` times,
sleeping 2 seconds between failed attempts, returning `None` when every
attempt fails. -/
def initialize_gradio_client (construct : String → Nat → Bool)
    (url : String) (max_retries : Nat) : Option Client × List REvent :=
  tryAttempts construct url max_retries 0

/-- The inner `for url in config["urls"]` loop of the startup pass
(app.py lines 76–81): call `initialize_gradio_client` on each candidate
in list order with the default `max_retries = 3`, stopping at the first
success. -/
def resolveCandidates (construct : String → Nat → Bool) :
    List String → Option Client × List REvent
  | [] => (none, [])
  | url :: rest =>
    let r := initialize_gradio_client construct url 3
    match r.1 with
    | some c => (some c, r.2)
    | none =>
      let r2 := resolveCandidates construct rest
      (r2.1, r.2 ++ r2.2)

/-- The static `CLIENTS` configuration (app.py lines 47–71): each
capability name with its ordered candidate endpoint list. -/
def CLIENTS : List (String × List String) :=
  [("virtual_tryon",
     ["https://7395458a587bc50ec3.gradio.live/",
      "https://virtual-try-on.hf.space/"]),
   ("chatbot",
     ["https://fe81ff40040ecfff3c.gradio.live/",
      "https://fashion-chatbot.hf.space/"]),
   ("text_to_dress",
     ["dhaan-ish/text-to-cloth"]),
   ("occasion",
     ["https://8c8e6f96c1fe2aefb7.gradio.live/",
      "https://fashion-occasion.hf.space/"])]

/-- The outer startup loop (app.py lines 74–83) over an arbitrary
configuration: build the `clients` registry, binding each capability to
the first resolved client, and skipping a capability whose resolution
failed.  Also returns the full event trace of the pass. -/
def buildClientsFrom (construct : String → Nat → Bool) :
    List (String × List String) → List (String × Client) × List REvent
  | [] => ([], [])
  | (name, urls) :: rest =>
    let r := resolveCandidates construct urls
    let rec' := buildClientsFrom construct rest
    match r.1 with
    | some c => ((name, c) :: rec'.1, r.2 ++ rec'.2)
    | none => (rec'.1, r.2 ++ rec'.2)

/-- The `clients` registry as built at startup from the static
configuration. -/
def buildClients (construct : String → Nat → Bool) :
    List (String × Client) × List REvent :=
  buildClientsFrom construct CLIENTS

/-- `name in clients`: the capability has a bound client. -/
def available (reg : List (String × Client)) (name : String) : Bool :=
  (reg.lookup name).isSome

/-- A wall-clock instant at second granularity, the input of
`datetime.now().strftime("%Y%m%d_%H%M%S")`. -/
structure DateTime where
  year : Nat
  month : Nat
  day : Nat
  hour : Nat
  minute : Nat
  second : Nat
deriving DecidableEq, Repr

/-- A representable instant: each field within the range `strftime`
renders with its fixed width (4 digits for the year, 2 for the rest). -/
def DateTime.Valid (t : DateTime) : Prop :=
  t.year < 10000 ∧ t.month < 100 ∧ t.day < 100 ∧
    t.hour < 100 ∧ t.minute < 100 ∧ t.second < 100

instance (t : DateTime) : Decidable t.Valid := by
  unfold DateTime.Valid; infer_instance

/-- Decimal rendering of `n` zero-padded to exactly `w` digits,
as `strftime`'s `%Y` / `%m` / … field formatting. -/
def padChars : Nat → Nat → List Char
  | 0, _ => []
  | w + 1, n => padChars w (n / 10) ++ [Nat.digitChar (n % 10)]

/-- Decimal parse of a digit string, the left inverse of `padChars`. -/
def parseNat (l : List Char) : Nat :=
  l.foldl (fun a c => a * 10 + (c.toNat - 48)) 0

/-- `datetime.now().strftime("%Y%m%d_%H%M%S")` as a character list. -/
def strftimeChars (t : DateTime) : List Char :=
  padChars 4 t.year ++ padChars 2 t.month ++ padChars 2 t.day ++
    ['_'] ++ padChars 2 t.hour ++ padChars 2 t.minute ++ padChars 2 t.second

/-- `generate_unique_filename(original_name)` (app.py lines 85–88):
prefix the logical name with the `YYYYMMDD_HHMMSS` timestamp of the
current instant, joined by an underscore. -/
def generate_unique_filename (now : DateTime) (original_name : String) : String :=
  String.mk (strftimeChars now) ++ "_" ++ original_name

/-- The staging directory `UPLOADS_DIR` (app.py lines 17–19). -/
def UPLOADS_DIR : String :=
  "C:\\Users\\deeks\\fashion-recommendation-sys\\backend\\uploads"

/-- The public output directory `PUBLIC_DIR` (app.py line 20). -/
def PUBLIC_DIR : String :=
  "C:\\Users\\deeks\\fashion-recommendation-sys\\frontend\\public"

/-- Python `str.split(sep)` over a character list: split on every
occurrence of `sep`, keeping empty segments (so `""` yields one empty
segment and a leading/trailing separator yields an empty segment). -/
def splitChars (sep : Char) : List Char → List (List Char)
  | [] => [[]]
  | c :: cs =>
    let r := splitChars sep cs
    if c = sep then [] :: r
    else
      match r with
      | [] => [[c]]
      | h :: t => (c :: h) :: t

/-- Python `str.split(sep)` for a one-character separator. -/
def pySplit (sep : Char) (s : String) : List String :=
  (splitChars sep s.data).map String.mk

/-- Python `str.strip()`: remove leading and trailing whitespace. -/
def pyStrip (s : String) : String :=
  String.mk (((s.data.dropWhile Char.isWhitespace).reverse.dropWhile
    Char.isWhitespace).reverse)

/-- Observable side effects of a route handler, in execution order:
an HTTP GET issued by `download_image` (with its `iter_content` chunk
size), a write into the local staging area, a synchronous remote client
invocation `clients[service].predict(args)`, and a `safe_copy` of a
result artifact into the public area. -/
inductive Effect where
  | httpGet (url : String) (chunkSize : Nat)
  | stagingWrite (path : String) (content : List Nat)
  | remoteCall (service : String) (args : List String)
  | publish (src : String) (dst : String)
deriving DecidableEq, Repr

/-- Outcome of `requests.get(url, stream=True)`: a transport failure
(the call raised), or a status code together with the body's chunk
stream as delivered by `iter_content`. -/
def HttpOracle : Type :=
  String → Nat → Except String (Nat × List (List Nat))

/-- `download_image(image_url)` (app.py lines 100–119): strip the URL,
issue a streamed GET, and on status 200 write the chunks to the fixed
staging filename and return its path; on any other status or on a
transport failure return `None` (the surrounding `try` swallows every
exception). -/
def download_image (http : HttpOracle) (image_url : String) :
    Option String × List Effect :=
  let url := pyStrip image_url
  let file_path := UPLOADS_DIR ++ "\\downloaded_image.png"
  match http url 128 with
  | Except.error _ => (none, [Effect.httpGet url 128])
  | Except.ok (code, chunks) =>
    if code = 200 then
      (some file_path,
       [Effect.httpGet url 128, Effect.stagingWrite file_path chunks.flatten])
    else
      (none, [Effect.httpGet url 128])

/-- A file part of a multipart request (`request.files[...]`). -/
structure UploadedFile where
  filename : String
  content : List Nat
deriving DecidableEq, Repr

/-- An inbound HTTP request: the parsed JSON body (string-valued
fields), the multipart file parts, and the form fields. -/
structure Request where
  json : List (String × String)
  files : List (String × UploadedFile)
  form : List (String × String)
deriving DecidableEq, Repr

/-- One field value of a JSON response body. -/
inductive JVal where
  | s (v : String)
  | b (v : Bool)
  | arr (v : List String)
deriving DecidableEq, Repr

/-- A JSON response together with its HTTP status code. -/
structure Response where
  fields : List (String × JVal)
  status : Nat
deriving DecidableEq, Repr

/-- `jsonify({'error': msg}), code`. -/
def errResponse (code : Nat) (msg : String) : Response :=
  { fields := [("error", JVal.s msg)], status := code }

/-- `str(KeyError(key))`: the message the catch-all except clause
surfaces when `data[key]` is evaluated on a dict lacking `key`. -/
def keyErrorMsg (key : String) : String :=
  "'" ++ key ++ "'"

/-- `str(BadRequestKeyError(key))`: the message surfaced when
`request.form[key]` is evaluated and `key` is absent (the exception is
raised inside the handler's `try`, so the catch-all converts it to a
500 like any other exception). -/
def formKeyErrorMsg (key : String) : String :=
  "400 Bad Request: The browser (or proxy) sent a request that this " ++
    "server could not understand. KeyError: " ++ keyErrorMsg key

/-- The process environment a route handler runs against: the `clients`
registry built at startup, the HTTP transport, the bound clients'
remote `predict` operations (`Except.error` models the invocation
raising, carrying `str(e)`), the `shutil.copy` outcome used by
`safe_copy`, and the current wall-clock instant. -/
structure Env where
  clients : List (String × Client)
  http : HttpOracle
  remote : String → List String → Except String String
  copyOk : String → String → Bool
  now : DateTime

/-- The `services` section of `GET /health` (app.py lines 148–151):
for each configured capability, `'available' if name in clients else
'unavailable'`, in configuration order. -/
def health_services (reg : List (String × Client)) : List (String × String) :=
  CLIENTS.map (fun p => (p.1, if available reg p.1 then "available" else "unavailable"))

/-- `POST /predict` (app.py lines 154–173): 503 when the chatbot
capability is unbound; otherwise evaluate `data["text"]` (a missing key
raises, and the catch-all converts the exception to a 500 whose error
field is `str(e)`), invoke the chatbot client, and answer
`{"result": result}`. -/
def predict (env : Env) (req : Request) : Response × List Effect :=
  if ¬ available env.clients "chatbot" then
    (errResponse 503 "Chatbot service not available", [])
  else
    match req.json.lookup "text" with
    | none => (errResponse 500 (keyErrorMsg "text"), [])
    | some text_input =>
      match env.remote "chatbot" [text_input] with
      | Except.error e =>
        (errResponse 500 e, [Effect.remoteCall "chatbot" [text_input]])
      | Except.ok result =>
        ({ fields := [("result", JVal.s result)], status := 200 },
         [Effect.remoteCall "chatbot" [text_input]])

/-- `POST /uploadocassion` (app.py lines 175–217): 503 when the
virtual try-on capability is unbound; 400 when the `uploadedFile` part
is missing; then `request.form['url']` (missing key raises, converted
to 500 by the catch-all), then the URL download, then the empty-filename
400 check, then staging of the upload, the remote call, and the
publication of the result under a timestamped name. -/
def upload_ocassion (env : Env) (req : Request) : Response × List Effect :=
  if ¬ available env.clients "virtual_tryon" then
    (errResponse 503 "Virtual try-on service not available", [])
  else
    match req.files.lookup "uploadedFile" with
    | none => (errResponse 400 "No file part", [])
    | some uploaded_file =>
      match req.form.lookup "url" with
      | none => (errResponse 500 (formKeyErrorMsg "url"), [])
      | some url =>
        let dl := download_image env.http url
        match dl.1 with
        | none => (errResponse 500 "Failed to download image", dl.2)
        | some downloaded_path =>
          if uploaded_file.filename = "" then
            (errResponse 400 "No selected file", dl.2)
          else
            let upload_path := UPLOADS_DIR ++ "\\upload.png"
            let staged := dl.2 ++ [Effect.stagingWrite upload_path uploaded_file.content]
            match env.remote "virtual_tryon" [downloaded_path, upload_path] with
            | Except.error e =>
              (errResponse 500 e,
               staged ++ [Effect.remoteCall "virtual_tryon" [downloaded_path, upload_path]])
            | Except.ok result =>
              let result_filename := generate_unique_filename env.now "result.png"
              let destination := PUBLIC_DIR ++ "\\" ++ result_filename
              let evs := staged ++
                [Effect.remoteCall "virtual_tryon" [downloaded_path, upload_path],
                 Effect.publish result destination]
              if env.copyOk result destination then
                ({ fields := [("message", JVal.s "Result image copied successfully."),
                              ("filename", JVal.s result_filename)], status := 200 }, evs)
              else
                (errResponse 500 "Failed to save result image", evs)

/-- `POST /upload` (app.py lines 219–255): 503 when the virtual try-on
capability is unbound; 400 when the `uploadedFile` part is missing or
its filename is empty; otherwise stage the upload, invoke the try-on
client against the fixed base image, and publish the result under a
timestamped name. -/
def upload_files (env : Env) (req : Request) : Response × List Effect :=
  if ¬ available env.clients "virtual_tryon" then
    (errResponse 503 "Virtual try-on service not available", [])
  else
    match req.files.lookup "uploadedFile" with
    | none => (errResponse 400 "No file part", [])
    | some uploaded_file =>
      if uploaded_file.filename = "" then
        (errResponse 400 "No selected file", [])
      else
        let upload_path := UPLOADS_DIR ++ "\\upload.png"
        let base_image := PUBLIC_DIR ++ "\\image.JPEG"
        let staged := [Effect.stagingWrite upload_path uploaded_file.content]
        match env.remote "virtual_tryon" [base_image, upload_path] with
        | Except.error e =>
          (errResponse 500 e,
           staged ++ [Effect.remoteCall "virtual_tryon" [base_image, upload_path]])
        | Except.ok result =>
          let result_filename := generate_unique_filename env.now "result.png"
          let destination := PUBLIC_DIR ++ "\\" ++ result_filename
          let evs := staged ++
            [Effect.remoteCall "virtual_tryon" [base_image, upload_path],
             Effect.publish result destination]
          if env.copyOk result destination then
            ({ fields := [("message", JVal.s "Result image copied successfully."),
                          ("filename", JVal.s result_filename)], status := 200 }, evs)
          else
            (errResponse 500 "Failed to save result image", evs)

/-- `POST /handleprompt` (app.py lines 257–289): 503 when the
text-to-dress capability is unbound; 400 when `data.get('prompt')` is
absent or empty (`if not prompt`); otherwise invoke the client and
publish the generated image under a timestamped name. -/
def handle_prompt (env : Env) (req : Request) : Response × List Effect :=
  if ¬ available env.clients "text_to_dress" then
    (errResponse 503 "Text-to-dress service not available", [])
  else
    match req.json.lookup "prompt" with
    | none => (errResponse 400 "No prompt provided", [])
    | some prompt =>
      if prompt = "" then (errResponse 400 "No prompt provided", [])
      else
        match env.remote "text_to_dress" [prompt] with
        | Except.error e =>
          (errResponse 500 e, [Effect.remoteCall "text_to_dress" [prompt]])
        | Except.ok result =>
          let result_filename := generate_unique_filename env.now "generated_dress.png"
          let destination := PUBLIC_DIR ++ "\\" ++ result_filename
          let evs := [Effect.remoteCall "text_to_dress" [prompt],
                      Effect.publish result destination]
          if env.copyOk result destination then
            ({ fields := [("message", JVal.s "Success"),
                          ("filename", JVal.s result_filename)], status := 200 }, evs)
          else
            (errResponse 500 "Failed to save generated image", evs)

/-- `POST /handleocassion` (app.py lines 291–320): 503 when the
occasion capability is unbound; 400 when `color` or `selectedOccasion`
is absent or empty; otherwise invoke the occasion client with the
composed phrase `"{color} shirt for {occasion}"`, split the returned
string on commas, and answer `{newItems, showRecommendations: true}`. -/
def handleocassion (env : Env) (req : Request) : Response × List Effect :=
  if ¬ available env.clients "occasion" then
    (errResponse 503 "Occasion service not available", [])
  else
    let color := (req.json.lookup "color").getD ""
    let selected_occasion := (req.json.lookup "selectedOccasion").getD ""
    if color = "" ∨ selected_occasion = "" then
      (errResponse 400 "Color and occasion are required", [])
    else
      let phrase := color ++ " shirt for " ++ selected_occasion
      match env.remote "occasion" [phrase] with
      | Except.error e =>
        (errResponse 500 e, [Effect.remoteCall "occasion" [phrase]])
      | Except.ok result =>
        let new_items := pySplit ',' result
        ({ fields := [("newItems", JVal.arr new_items),
                      ("showRecommendations", JVal.b true)], status := 200 },
         [Effect.remoteCall "occasion" [phrase]])

/-- The resolver's event trace for attempts `0, …, k` against `url`,
with the 2-second backoff sleep between consecutive attempts. -/
def attemptsUpTo (url : String) : Nat → List REvent
  | 0 => [REvent.attempt url 0]
  | k + 1 => attemptsUpTo url k ++ [REvent.sleep 2, REvent.attempt url (k + 1)]

/-! ### Concrete fixtures used by witness theorems -/

/-- A transport that always answers 200 with a two-chunk body. -/
def httpOk : HttpOracle := fun _ _ => Except.ok (200, [[1, 2], [3]])

/-- A transport whose GET always raises. -/
def httpDown : HttpOracle := fun _ _ => Except.error "connection refused"

/-- A transport that always answers 404. -/
def http404 : HttpOracle := fun _ _ => Except.ok (404, [])

/-- Remote clients whose invocation always succeeds with `"ok"`. -/
def remoteOk : String → List String → Except String String :=
  fun _ _ => Except.ok "ok"

/-- Remote clients whose invocation always raises with message `"boom"`. -/
def remoteBoom : String → List String → Except String String :=
  fun _ _ => Except.error "boom"

/-- Remote clients answering the delimited item string of the spec's
`/handleocassion` scenario. -/
def remoteItems : String → List String → Except String String :=
  fun _ _ => Except.ok "shirt,shoes,tie"

/-- Remote clients answering a result with leading and trailing commas. -/
def remoteCommas : String → List String → Except String String :=
  fun _ _ => Except.ok ",shirt,"

/-- A registry in which every capability is bound. -/
def regAll : List (String × Client) :=
  [("virtual_tryon", ⟨"v"⟩), ("chatbot", ⟨"c"⟩),
   ("text_to_dress", ⟨"t"⟩), ("occasion", ⟨"o"⟩)]

/-- A fixed instant. -/
def t2024 : DateTime := ⟨2024, 5, 6, 7, 8, 9⟩

/-- Environment with every capability bound and every oracle succeeding. -/
def envAll : Env := ⟨regAll, httpOk, remoteOk, fun _ _ => true, t2024⟩

/-- Environment with an empty registry. -/
def envNone : Env := ⟨[], httpOk, remoteOk, fun _ _ => true, t2024⟩

/-- Environment whose remote invocations raise. -/
def envBoom : Env := ⟨regAll, httpOk, remoteBoom, fun _ _ => true, t2024⟩

/-- Environment for the `/handleocassion` item-split scenario. -/
def envItems : Env := ⟨regAll, httpOk, remoteItems, fun _ _ => true, t2024⟩

/-- Environment whose occasion client answers `",shirt,"`. -/
def envCommas : Env := ⟨regAll, httpOk, remoteCommas, fun _ _ => true, t2024⟩

/-- A request with no fields at all. -/
def emptyReq : Request := ⟨[], [], []⟩

/-- A JSON request whose body lacks the `text` field. -/
def reqNoText : Request := ⟨[("other", "x")], [], []⟩

/-- A well-formed uploaded file part. -/
def fileA : UploadedFile := ⟨"a.png", [7]⟩

/-- An uploaded file part with an empty filename. -/
def fileNoName : UploadedFile := ⟨"", [7]⟩

/-- A multipart request whose file part has an empty filename. -/
def reqEmptyFilename : Request :=
  ⟨[], [("uploadedFile", fileNoName)], [("url", "http://img.example/x.png")]⟩

/-- A complete multipart request for the try-on routes. -/
def reqUpload : Request :=
  ⟨[], [("uploadedFile", fileA)], [("url", "http://img.example/x.png")]⟩

/-- A multipart request with a file part but no `url` form field. -/
def reqNoUrl : Request := ⟨[], [("uploadedFile", fileA)], []⟩

/-- A complete `/handleocassion` request. -/
def reqOccasion : Request :=
  ⟨[("color", "red"), ("selectedOccasion", "wedding")], [], []⟩

/-- A `/handleocassion` request with an empty color. -/
def reqNoColor : Request :=
  ⟨[("color", ""), ("selectedOccasion", "wedding")], [], []⟩

/-- A complete `/handleprompt` request. -/
def reqPrompt : Request := ⟨[("prompt", "blue dress")], [], []⟩

/-- A complete `/predict` request. -/
def reqText : Request := ⟨[("text", "hi")], [], []⟩

/-! ### Properties of the padded decimal rendering -/

theorem padChars_length (w n : Nat) : (padChars w n).length = w := by
  induction w generalizing n with
  | zero => rfl
  | succ w ih => simp [padChars, ih]

theorem parseNat_append_singleton (l : List Char) (c : Char) :
    parseNat (l ++ [c]) = parseNat l * 10 + (c.toNat - 48) := by
  simp [parseNat, List.foldl_append]

theorem digitChar_toNat (d : Nat) (hd : d < 10) :
    (Nat.digitChar d).toNat = 48 + d := by
  interval_cases d <;> rfl

theorem parseNat_padChars (w n : Nat) (h : n < 10 ^ w) :
    parseNat (padChars w n) = n := by
  induction w generalizing n with
  | zero =>
    interval_cases n
    rfl
  | succ w ih =>
    have hdiv : n / 10 < 10 ^ w := by
      rw [Nat.div_lt_iff_lt_mul (by norm_num)]
      calc n < 10 ^ (w + 1) := h
        _ = 10 ^ w * 10 := by ring
    have hmod : n % 10 < 10 := Nat.mod_lt _ (by norm_num)
    rw [padChars, parseNat_append_singleton, ih _ hdiv,
      digitChar_toNat _ hmod]
    omega

theorem padChars_injOn (w a b : Nat) (ha : a < 10 ^ w) (hb : b < 10 ^ w)
    (h : padChars w a = padChars w b) : a = b := by
  have := congrArg parseNat h
  rwa [parseNat_padChars w a ha, parseNat_padChars w b hb] at this

theorem strftimeChars_injOn (t u : DateTime) (ht : t.Valid) (hu : u.Valid)
    (h : strftimeChars t = strftimeChars u) : t = u := by
  obtain ⟨hty, htmo, htd, hth, htmi, hts⟩ := ht
  obtain ⟨huy, humo, hud, huh, humi, hus⟩ := hu
  unfold strftimeChars at h
  have h1 := List.append_inj' h (by simp [padChars_length])
  have h2 := List.append_inj' h1.1 (by simp [padChars_length])
  have h3 := List.append_inj' h2.1 (by simp [padChars_length])
  have h4 := List.append_inj' h3.1 rfl
  have h5 := List.append_inj' h4.1 (by simp [padChars_length])
  have h6 := List.append_inj' h5.1 (by simp [padChars_length])
  have ey := padChars_injOn 4 t.year u.year (by simpa using hty) (by simpa using huy) h6.1
  have emo := padChars_injOn 2 t.month u.month (by simpa using htmo) (by simpa using humo) h6.2
  have ed := padChars_injOn 2 t.day u.day (by simpa using htd) (by simpa using hud) h5.2
  have eh := padChars_injOn 2 t.hour u.hour (by simpa using hth) (by simpa using huh) h3.2
  have emi := padChars_injOn 2 t.minute u.minute (by simpa using htmi) (by simpa using humi) h2.2
  have es := padChars_injOn 2 t.second u.second (by simpa using hts) (by simpa using hus) h1.2
  cases t; cases u
  simp only [DateTime.mk.injEq]
  exact ⟨ey, emo, ed, eh, emi, es⟩

theorem generate_unique_filename_inj (t u : DateTime) (name : String)
    (ht : t.Valid) (hu : u.Valid) (hne : t ≠ u) :
    generate_unique_filename t name ≠ generate_unique_filename u name := by
  intro h
  apply hne
  apply strftimeChars_injOn t u ht hu
  unfold generate_unique_filename at h
  have hdata := congrArg String.data h
  rw [String.data_append, String.data_append, String.data_append,
    String.data_append] at hdata
  have h1 := List.append_inj' hdata rfl
  have h2 := List.append_inj' h1.1 rfl
  exact h2.1

/-! ### Behaviour of the endpoint resolver -/

theorem initialize_fail3 (construct : String → Nat → Bool) (v : String)
    (h0 : construct v 0 = false) (h1 : construct v 1 = false)
    (h2 : construct v 2 = false) :
    initialize_gradio_client construct v 3 = (none, attemptsUpTo v 2) := by
  simp [initialize_gradio_client, tryAttempts, h0, h1, h2, attemptsUpTo]

theorem initialize_succ (construct : String → Nat → Bool) (u : String)
    (k : Nat) (hk : k < 3) (hb : ∀ i, i < k → construct u i = false)
    (hs : construct u k = true) :
    initialize_gradio_client construct u 3 = (some ⟨u⟩, attemptsUpTo u k) := by
  interval_cases k
  · simp [initialize_gradio_client, tryAttempts, hs, attemptsUpTo]
  · have h0 := hb 0 (by norm_num)
    simp [initialize_gradio_client, tryAttempts, h0, hs, attemptsUpTo]
  · have h0 := hb 0 (by norm_num)
    have h1 := hb 1 (by norm_num)
    simp [initialize_gradio_client, tryAttempts, h0, h1, hs, attemptsUpTo]

/-- C3: the resolver walks the candidate list in order; each failing
candidate receives exactly its 3 construction attempts with the
2-second wait between attempts; the first candidate whose construction
succeeds (on attempt `k < 3`, after `k` failures) is bound, and no
attempt is made against any later candidate nor again against an
earlier one — the full event trace is exactly the failing candidates'
exhausted retries followed by the successful candidate's attempts. -/
theorem claim_C3 (construct : String → Nat → Bool) (pre : List String)
    (u : String) (rest : List String) (k : Nat)
    (hpre : ∀ v ∈ pre, ∀ i < 3, construct v i = false)
    (hk : k < 3) (hb : ∀ i < k, construct u i = false)
    (hs : construct u k = true) :
    resolveCandidates construct (pre ++ u :: rest)
      = (some ⟨u⟩,
         (pre.map (fun v => attemptsUpTo v 2)).flatten ++ attemptsUpTo u k) := by
  induction pre with
  | nil =>
    simp [resolveCandidates, initialize_succ construct u k hk hb hs]
  | cons v pre ih =>
    have hv := hpre v (List.mem_cons_self v pre)
    have hfail := initialize_fail3 construct v (hv 0 (by norm_num))
      (hv 1 (by norm_num)) (hv 2 (by norm_num))
    have hrest : ∀ w ∈ pre, ∀ i < 3, construct w i = false :=
      fun w hw => hpre w (List.mem_cons_of_mem v hw)
    simp [resolveCandidates, hfail, ih hrest]

/-- Witness for C3: the spec's two-candidate scenario — candidate
`"u1"` fails all 3 attempts, candidate `"u2"` succeeds at once, so
`"u2"` is bound and the trace ends with its single attempt. -/
theorem claim_C3_witness :
    resolveCandidates (fun v _ => v == "u2") ["u1", "u2"]
      = (some ⟨"u2"⟩,
         [REvent.attempt "u1" 0, REvent.sleep 2, REvent.attempt "u1" 1,
          REvent.sleep 2, REvent.attempt "u1" 2, REvent.attempt "u2" 0]) :=
  claim_C3 (fun v _ => v == "u2") ["u1"] "u2" [] 0 (by decide) (by decide)
    (by decide) (by decide)

theorem buildClientsFrom_lookup_none (construct : String → Nat → Bool)
    (config : List (String × List String)) (name : String)
    (h : name ∉ config.map Prod.fst) :
    ((buildClientsFrom construct config).1.lookup name) = none := by
  induction config with
  | nil => rfl
  | cons p rest ih =>
    obtain ⟨n, urls⟩ := p
    simp only [List.map_cons, List.mem_cons, not_or] at h
    have hbeq : (name == n) = false := beq_eq_false_iff_ne.mpr h.1
    cases hcase : (resolveCandidates construct urls).1 with
    | none => simpa [buildClientsFrom, hcase] using ih h.2
    | some c => simp [buildClientsFrom, hcase, List.lookup, hbeq, ih h.2]

theorem buildClientsFrom_skip_empty (construct : String → Nat → Bool)
    (pre rest : List (String × List String)) (name : String) :
    buildClientsFrom construct (pre ++ (name, []) :: rest)
      = buildClientsFrom construct (pre ++ rest) := by
  induction pre with
  | nil => simp [buildClientsFrom, resolveCandidates]
  | cons p pre ih =>
    obtain ⟨n, urls⟩ := p
    cases hcase : (resolveCandidates construct urls).1 with
    | none => simp [buildClientsFrom, hcase, ih]
    | some c => simp [buildClientsFrom, hcase, ih]

/-- C4: a capability configured with an empty candidate list changes
nothing about the startup pass — the registry and the full attempt
trace are those of the configuration without that capability (so zero
construction attempts are made for it) — and the capability ends up
unbound, i.e. unavailable, in the registry. -/
theorem claim_C4 (construct : String → Nat → Bool)
    (pre rest : List (String × List String)) (name : String)
    (h : name ∉ (pre ++ rest).map Prod.fst) :
    buildClientsFrom construct (pre ++ (name, []) :: rest)
      = buildClientsFrom construct (pre ++ rest)
    ∧ available (buildClientsFrom construct (pre ++ (name, []) :: rest)).1 name
        = false := by
  have heq := buildClientsFrom_skip_empty construct pre rest name
  refine ⟨heq, ?_⟩
  rw [heq, available, buildClientsFrom_lookup_none construct (pre ++ rest) name h]
  rfl

/-- Witness for C4: a configuration in which `"nocap"` has no
candidates behaves exactly like the one without `"nocap"`, which stays
unbound. -/
theorem claim_C4_witness :
    buildClientsFrom (fun _ _ => true)
        ([("cap1", ["x"])] ++ ("nocap", []) :: [("cap2", ["y"])])
      = buildClientsFrom (fun _ _ => true) ([("cap1", ["x"])] ++ [("cap2", ["y"])])
    ∧ available (buildClientsFrom (fun _ _ => true)
        ([("cap1", ["x"])] ++ ("nocap", []) :: [("cap2", ["y"])])).1 "nocap"
        = false :=
  claim_C4 (fun _ _ => true) [("cap1", ["x"])] [("cap2", ["y"])] "nocap" (by decide)

/-! ### Route-level claims -/

/-- C2: whenever a capability has no bound client in the registry,
every route serving it answers the 503 service-unavailable outcome with
an empty effect trace — no staging write, download, or remote call —
regardless of the rest of the request, so the availability check is the
first precondition evaluated. -/
theorem claim_C2 (env : Env) (req : Request) :
    (available env.clients "chatbot" = false →
      predict env req = (errResponse 503 "Chatbot service not available", []))
    ∧ (available env.clients "virtual_tryon" = false →
        upload_ocassion env req
            = (errResponse 503 "Virtual try-on service not available", [])
          ∧ upload_files env req
            = (errResponse 503 "Virtual try-on service not available", []))
    ∧ (available env.clients "text_to_dress" = false →
        handle_prompt env req
          = (errResponse 503 "Text-to-dress service not available", []))
    ∧ (available env.clients "occasion" = false →
        handleocassion env req
          = (errResponse 503 "Occasion service not available", [])) :=
  ⟨fun h => by simp [predict, h],
   fun h => ⟨by simp [upload_ocassion, h], by simp [upload_files, h]⟩,
   fun h => by simp [handle_prompt, h],
   fun h => by simp [handleocassion, h]⟩

/-- Witness for C2: with an empty registry every route answers 503 with
no side effects. -/
theorem claim_C2_witness :
    predict envNone emptyReq
        = (errResponse 503 "Chatbot service not available", [])
    ∧ upload_ocassion envNone emptyReq
        = (errResponse 503 "Virtual try-on service not available", [])
    ∧ upload_files envNone emptyReq
        = (errResponse 503 "Virtual try-on service not available", [])
    ∧ handle_prompt envNone emptyReq
        = (errResponse 503 "Text-to-dress service not available", [])
    ∧ handleocassion envNone emptyReq
        = (errResponse 503 "Occasion service not available", []) :=
  ⟨(claim_C2 envNone emptyReq).1 (by decide),
   ((claim_C2 envNone emptyReq).2.1 (by decide)).1,
   ((claim_C2 envNone emptyReq).2.1 (by decide)).2,
   (claim_C2 envNone emptyReq).2.2.1 (by decide),
   (claim_C2 envNone emptyReq).2.2.2 (by decide)⟩

/-- C1 counterexample: the claim fails on the code in two ways. With
the chatbot capability available, `/predict` on a request missing the
required `text` field answers 500 (the `data["text"]` key lookup raises
and the catch-all converts it), not the claimed 400; and the
`/uploadocassion` empty-filename 400 is produced only after the URL
download has already run — its effect trace is non-empty. -/
theorem claim_C1_counterexample :
    (predict envAll reqNoText).1.status = 500
    ∧ (predict envAll reqNoText).1.status ≠ 400
    ∧ (upload_ocassion envAll reqEmptyFilename).1
        = errResponse 400 "No selected file"
    ∧ (upload_ocassion envAll reqEmptyFilename).2 ≠ [] :=
  ⟨rfl, by decide, rfl, by decide⟩

/-- C1 (amended): a missing `uploadedFile` part (for `/upload` and
`/uploadocassion`), an empty filename (for `/upload`), a missing or
empty `prompt` (for `/handleprompt`), and a missing or empty `color` or
`selectedOccasion` (for `/handleocassion`) each produce the 400
bad-request outcome with no staging write, download, or remote call.
However, a missing `text` field on `/predict` and a missing `url` form
field on `/uploadocassion` instead produce the 500 outcome (the key
lookup raises and the catch-all converts it) — also with no side
effects — and the empty-filename 400 of `/uploadocassion` is produced
only after the URL download has already executed, its effects appearing
in the trace. -/
theorem claim_C1 (env : Env) (req : Request) :
    (available env.clients "virtual_tryon" = true →
      req.files.lookup "uploadedFile" = none →
      upload_ocassion env req = (errResponse 400 "No file part", [])
      ∧ upload_files env req = (errResponse 400 "No file part", []))
    ∧ (∀ f, available env.clients "virtual_tryon" = true →
        req.files.lookup "uploadedFile" = some f → f.filename = "" →
        upload_files env req = (errResponse 400 "No selected file", []))
    ∧ (available env.clients "text_to_dress" = true →
        (req.json.lookup "prompt" = none ∨ req.json.lookup "prompt" = some "") →
        handle_prompt env req = (errResponse 400 "No prompt provided", []))
    ∧ (available env.clients "occasion" = true →
        ((req.json.lookup "color").getD "" = ""
          ∨ (req.json.lookup "selectedOccasion").getD "" = "") →
        handleocassion env req
          = (errResponse 400 "Color and occasion are required", []))
    ∧ (available env.clients "chatbot" = true →
        req.json.lookup "text" = none →
        predict env req = (errResponse 500 (keyErrorMsg "text"), []))
    ∧ (∀ f, available env.clients "virtual_tryon" = true →
        req.files.lookup "uploadedFile" = some f →
        req.form.lookup "url" = none →
        upload_ocassion env req = (errResponse 500 (formKeyErrorMsg "url"), []))
    ∧ (∀ f url p, available env.clients "virtual_tryon" = true →
        req.files.lookup "uploadedFile" = some f → f.filename = "" →
        req.form.lookup "url" = some url →
        (download_image env.http url).1 = some p →
        upload_ocassion env req
          = (errResponse 400 "No selected file",
             (download_image env.http url).2)) :=
  ⟨fun hav hf => ⟨by simp [upload_ocassion, hav, hf], by simp [upload_files, hav, hf]⟩,
   fun f hav hf hname => by simp [upload_files, hav, hf, hname],
   fun hav hp => by rcases hp with h | h <;> simp [handle_prompt, hav, h],
   fun hav hco => by rcases hco with h | h <;> simp [handleocassion, hav, h],
   fun hav ht => by simp [predict, hav, ht],
   fun f hav hf hu => by simp [upload_ocassion, hav, hf, hu],
   fun f url p hav hf hname hu hdl => by
     simp [upload_ocassion, hav, hf, hname, hu, hdl]⟩

/-- Witness for C1 (amended): each branch at a concrete request against
the fully available environment. -/
theorem claim_C1_witness :
    (upload_ocassion envAll emptyReq = (errResponse 400 "No file part", [])
      ∧ upload_files envAll emptyReq = (errResponse 400 "No file part", []))
    ∧ upload_files envAll reqEmptyFilename
        = (errResponse 400 "No selected file", [])
    ∧ handle_prompt envAll emptyReq = (errResponse 400 "No prompt provided", [])
    ∧ handleocassion envAll reqNoColor
        = (errResponse 400 "Color and occasion are required", [])
    ∧ predict envAll reqNoText = (errResponse 500 (keyErrorMsg "text"), [])
    ∧ upload_ocassion envAll reqNoUrl
        = (errResponse 500 (formKeyErrorMsg "url"), [])
    ∧ upload_ocassion envAll reqEmptyFilename
        = (errResponse 400 "No selected file",
           (download_image envAll.http "http://img.example/x.png").2) :=
  ⟨(claim_C1 envAll emptyReq).1 rfl rfl,
   (claim_C1 envAll reqEmptyFilename).2.1 fileNoName rfl rfl rfl,
   (claim_C1 envAll emptyReq).2.2.1 rfl (Or.inl rfl),
   (claim_C1 envAll reqNoColor).2.2.2.1 rfl (Or.inl rfl),
   (claim_C1 envAll reqNoText).2.2.2.2.1 rfl rfl,
   (claim_C1 envAll reqNoUrl).2.2.2.2.2.1 fileA rfl rfl rfl,
   (claim_C1 envAll reqEmptyFilename).2.2.2.2.2.2 fileNoName
     "http://img.example/x.png" (UPLOADS_DIR ++ "\\downloaded_image.png")
     rfl rfl rfl rfl rfl⟩

/-- C5: two invocations of the filename generator with the same logical
name at distinct second-granularity instants yield distinct filenames
(the `YYYYMMDD_HHMMSS` prefix is injective on representable instants),
so no prior result file is ever overwritten. -/
theorem claim_C5 (t u : DateTime) (name : String)
    (ht : t.Valid) (hu : u.Valid) (hne : t ≠ u) :
    generate_unique_filename t name ≠ generate_unique_filename u name :=
  generate_unique_filename_inj t u name ht hu hne

/-- Witness for C5: two instants one second apart give different
filenames for the same logical name. -/
theorem claim_C5_witness :
    generate_unique_filename ⟨2024, 5, 6, 7, 8, 9⟩ "result.png"
      ≠ generate_unique_filename ⟨2024, 5, 6, 7, 8, 10⟩ "result.png" :=
  claim_C5 ⟨2024, 5, 6, 7, 8, 9⟩ ⟨2024, 5, 6, 7, 8, 10⟩ "result.png"
    (by decide) (by decide) (by decide)

/-- C6: a successful `/handleocassion` request with non-empty color `c`
and occasion `o` invokes the occasion client with the composed phrase
`"{c} shirt for {o}"`, splits the returned string on every comma
without filtering empty segments, and answers
`{newItems, showRecommendations: true}` with status 200 and exactly the
one remote call as side effect. -/
theorem claim_C6 (env : Env) (req : Request) (c o result : String)
    (hav : available env.clients "occasion" = true)
    (hc : req.json.lookup "color" = some c) (hcne : c ≠ "")
    (ho : req.json.lookup "selectedOccasion" = some o) (hone : o ≠ "")
    (hres : env.remote "occasion" [c ++ " shirt for " ++ o] = Except.ok result) :
    handleocassion env req
      = ({ fields := [("newItems", JVal.arr (pySplit ',' result)),
                      ("showRecommendations", JVal.b true)], status := 200 },
         [Effect.remoteCall "occasion" [c ++ " shirt for " ++ o]]) := by
  simp [handleocassion, hav, hc, hcne, ho, hone, hres]

/-- Witness for C6: the spec's scenario — remote result
`"shirt,shoes,tie"` yields those three items — and a result with
leading and trailing commas yields empty segments unfiltered. -/
theorem claim_C6_witness :
    handleocassion envItems reqOccasion
      = ({ fields := [("newItems", JVal.arr ["shirt", "shoes", "tie"]),
                      ("showRecommendations", JVal.b true)], status := 200 },
         [Effect.remoteCall "occasion" ["red shirt for wedding"]])
    ∧ handleocassion envCommas reqOccasion
      = ({ fields := [("newItems", JVal.arr ["", "shirt", ""]),
                      ("showRecommendations", JVal.b true)], status := 200 },
         [Effect.remoteCall "occasion" ["red shirt for wedding"]]) :=
  ⟨claim_C6 envItems reqOccasion "red" "wedding" "shirt,shoes,tie"
     rfl rfl (by decide) rfl (by decide) rfl,
   claim_C6 envCommas reqOccasion "red" "wedding" ",shirt,"
     rfl rfl (by decide) rfl (by decide) rfl⟩

/-- C7: the `/health` services report covers exactly the configured
capability names, and marks a capability `available` precisely when the
startup pass bound a client for it, `unavailable` precisely when it did
not. -/
theorem claim_C7 (construct : String → Nat → Bool) :
    (health_services (buildClients construct).1).map Prod.fst
        = CLIENTS.map Prod.fst
    ∧ ∀ name status,
        (name, status) ∈ health_services (buildClients construct).1 →
        (status = "available"
            ↔ available (buildClients construct).1 name = true)
        ∧ (status = "unavailable"
            ↔ available (buildClients construct).1 name = false) := by
  constructor
  · simp [health_services, CLIENTS]
  · intro name status hmem
    simp only [health_services, CLIENTS, List.map_cons, List.map_nil,
      List.mem_cons, List.not_mem_nil, or_false, Prod.mk.injEq] at hmem
    rcases hmem with ⟨hn, hs⟩ | ⟨hn, hs⟩ | ⟨hn, hs⟩ | ⟨hn, hs⟩ <;> subst hn <;>
      rcases hav : available (buildClients construct).1 _ <;>
        simp [hav] at hs <;> subst hs <;> simp [hav]

/-- Witness for C7: with a construction oracle that always fails, the
report lists the configured names and marks `chatbot` unavailable. -/
theorem claim_C7_witness :
    (("unavailable" = "available"
        ↔ available (buildClients (fun _ _ => false)).1 "chatbot" = true)
      ∧ ("unavailable" = "unavailable"
        ↔ available (buildClients (fun _ _ => false)).1 "chatbot" = false)) :=
  (claim_C7 (fun _ _ => false)).2 "chatbot" "unavailable" (by decide)

/-- C8: the download-staging operation answers the fixed local path
when the GET yields status 200, having written the body's chunks to the
fixed filename; it answers `none` — without raising — on any non-200
status and on any transport failure. -/
theorem claim_C8 (http : HttpOracle) (image_url : String) :
    (∀ chunks, http (pyStrip image_url) 128 = Except.ok (200, chunks) →
      download_image http image_url
        = (some (UPLOADS_DIR ++ "\\downloaded_image.png"),
           [Effect.httpGet (pyStrip image_url) 128,
            Effect.stagingWrite (UPLOADS_DIR ++ "\\downloaded_image.png")
              chunks.flatten]))
    ∧ (∀ code chunks, http (pyStrip image_url) 128 = Except.ok (code, chunks) →
        code ≠ 200 →
        download_image http image_url
          = (none, [Effect.httpGet (pyStrip image_url) 128]))
    ∧ (∀ e, http (pyStrip image_url) 128 = Except.error e →
        download_image http image_url
          = (none, [Effect.httpGet (pyStrip image_url) 128])) :=
  ⟨fun chunks h => by simp [download_image, h],
   fun code chunks h hne => by simp [download_image, h, hne],
   fun e h => by simp [download_image, h]⟩

/-- Witness for C8: the three transports — 200, 404, raising — at a
whitespace-padded URL. -/
theorem claim_C8_witness :
    download_image httpOk "  http://x  "
      = (some (UPLOADS_DIR ++ "\\downloaded_image.png"),
         [Effect.httpGet "http://x" 128,
          Effect.stagingWrite (UPLOADS_DIR ++ "\\downloaded_image.png")
            [1, 2, 3]])
    ∧ download_image http404 "  http://x  "
        = (none, [Effect.httpGet "http://x" 128])
    ∧ download_image httpDown "  http://x  "
        = (none, [Effect.httpGet "http://x" 128]) :=
  ⟨(claim_C8 httpOk "  http://x  ").1 [[1, 2], [3]] rfl,
   (claim_C8 http404 "  http://x  ").2.1 404 [] rfl (by decide),
   (claim_C8 httpDown "  http://x  ").2.2 "connection refused" rfl⟩

/-- C9: every route converts a raising remote invocation into the 500
outcome whose error field carries the exception's message verbatim; no
exception escapes the handler. -/
theorem claim_C9 (env : Env) (req : Request) (e : String) :
    (∀ t, available env.clients "chatbot" = true →
      req.json.lookup "text" = some t →
      env.remote "chatbot" [t] = Except.error e →
      (predict env req).1 = errResponse 500 e)
    ∧ (∀ f url p, available env.clients "virtual_tryon" = true →
        req.files.lookup "uploadedFile" = some f → f.filename ≠ "" →
        req.form.lookup "url" = some url →
        (download_image env.http url).1 = some p →
        env.remote "virtual_tryon" [p, UPLOADS_DIR ++ "\\upload.png"]
          = Except.error e →
        (upload_ocassion env req).1 = errResponse 500 e)
    ∧ (∀ f, available env.clients "virtual_tryon" = true →
        req.files.lookup "uploadedFile" = some f → f.filename ≠ "" →
        env.remote "virtual_tryon"
            [PUBLIC_DIR ++ "\\image.JPEG", UPLOADS_DIR ++ "\\upload.png"]
          = Except.error e →
        (upload_files env req).1 = errResponse 500 e)
    ∧ (∀ p, available env.clients "text_to_dress" = true →
        req.json.lookup "prompt" = some p → p ≠ "" →
        env.remote "text_to_dress" [p] = Except.error e →
        (handle_prompt env req).1 = errResponse 500 e)
    ∧ (∀ c o, available env.clients "occasion" = true →
        req.json.lookup "color" = some c → c ≠ "" →
        req.json.lookup "selectedOccasion" = some o → o ≠ "" →
        env.remote "occasion" [c ++ " shirt for " ++ o] = Except.error e →
        (handleocassion env req).1 = errResponse 500 e) :=
  ⟨fun t hav ht hr => by simp [predict, hav, ht, hr],
   fun f url p hav hf hname hu hdl hr => by
     simp [upload_ocassion, hav, hf, hname, hu, hdl, hr],
   fun f hav hf hname hr => by simp [upload_files, hav, hf, hname, hr],
   fun p hav hp hpne hr => by simp [handle_prompt, hav, hp, hpne, hr],
   fun c o hav hc hcne ho hone hr => by
     simp [handleocassion, hav, hc, hcne, ho, hone, hr]⟩

/-- Witness for C9: in an environment whose remote clients raise with
message `"boom"`, each of the five routes answers 500 with that
message. -/
theorem claim_C9_witness :
    (predict envBoom reqText).1 = errResponse 500 "boom"
    ∧ (upload_ocassion envBoom reqUpload).1 = errResponse 500 "boom"
    ∧ (upload_files envBoom reqUpload).1 = errResponse 500 "boom"
    ∧ (handle_prompt envBoom reqPrompt).1 = errResponse 500 "boom"
    ∧ (handleocassion envBoom reqOccasion).1 = errResponse 500 "boom" :=
  ⟨(claim_C9 envBoom reqText "boom").1 "hi" rfl rfl rfl,
   (claim_C9 envBoom reqUpload "boom").2.1 fileA "http://img.example/x.png"
     (UPLOADS_DIR ++ "\\downloaded_image.png") rfl rfl (by decide) rfl rfl rfl,
   (claim_C9 envBoom reqUpload "boom").2.2.1 fileA rfl rfl (by decide) rfl,
   (claim_C9 envBoom reqPrompt "boom").2.2.2.1 "blue dress" rfl rfl
     (by decide) rfl,
   (claim_C9 envBoom reqOccasion "boom").2.2.2.2 "red" "wedding" rfl rfl
     (by decide) rfl (by decide) rfl⟩

/-- C10: the download-staging operation strips leading and trailing
whitespace from the URL before issuing the GET — the first effect is
the GET on the stripped URL — and two URLs equal after stripping are
processed identically. -/
theorem claim_C10 (http : HttpOracle) (u1 u2 : String)
    (h : pyStrip u1 = pyStrip u2) :
    (download_image http u1).2.head?
        = some (Effect.httpGet (pyStrip u1) 128)
    ∧ download_image http u1 = download_image http u2 := by
  constructor
  · unfold download_image
    cases hc : http (pyStrip u1) 128 with
    | error e => simp [hc]
    | ok v =>
      obtain ⟨code, chunks⟩ := v
      by_cases h200 : code = 200 <;> simp [hc, h200]
  · simp only [download_image, h]

/-- Witness for C10: a whitespace-padded URL issues its GET on the
stripped URL and behaves exactly like the already-stripped one. -/
theorem claim_C10_witness :
    (download_image httpOk "  http://x  ").2.head?
        = some (Effect.httpGet "http://x" 128)
    ∧ download_image httpOk "  http://x  " = download_image httpOk "http://x" :=
  claim_C10 httpOk "  http://x  " "http://x" (by decide)

end FashionApp
